import Mathlib

/-!
Shallow embedding of the Unified City Commute booking application
(`src/app.py`): station/location/car-type enumerations, fare constants,
the number-input widget's clamping, the session-state cab toggle, the
booking-action validation, ticket-text composition (as a literal/field
template mirroring the source's f-strings), the voice announcement, and
the ticket-id derivation from a random UUID4 string.
-/

/-- Stations offered by the metro selectboxes (`STATIONS` in the source). -/
inductive Station
  | Ameerpet
  | KPHB
  | Kukatpally
  | Madhapur
  | HitechCity
  | Raidurg
deriving DecidableEq, Repr

/-- Display name of a station, exactly as listed in `STATIONS`. -/
def Station.name : Station → String
  | .Ameerpet => "Ameerpet"
  | .KPHB => "KPHB"
  | .Kukatpally => "Kukatpally"
  | .Madhapur => "Madhapur"
  | .HitechCity => "Hitech City"
  | .Raidurg => "Raidurg"

/-- Cab drop locations (`LOCATIONS` in the source). -/
inductive Location
  | Office
  | Home
  | ShoppingMall
  | Hospital
  | College
  | Hotel
deriving DecidableEq, Repr

/-- Display name of a drop location, exactly as listed in `LOCATIONS`. -/
def Location.name : Location → String
  | .Office => "Office"
  | .Home => "Home"
  | .ShoppingMall => "Shopping Mall"
  | .Hospital => "Hospital"
  | .College => "College"
  | .Hotel => "Hotel"

/-- Car types keyed in `CAB_RATES`. -/
inductive CarType
  | Mini
  | Sedan
  | SUV
deriving DecidableEq, Repr

/-- Display name of a car type, exactly as keyed in `CAB_RATES`. -/
def CarType.name : CarType → String
  | .Mini => "Mini"
  | .Sedan => "Sedan"
  | .SUV => "SUV"

/-- Flat per-passenger metro rate (`METRO_PRICE = 30`). -/
def METRO_PRICE : Nat := 30

/-- Per-passenger cab rate by car type (`CAB_RATES = \x7bMini:40, Sedan:60, SUV:90\x7d`). -/
def CAB_RATES : CarType → Nat
  | .Mini => 40
  | .Sedan => 60
  | .SUV => 90

/-- Clamping behaviour of the numeric stepper widget
`st.number_input(min_value=1, max_value=10, step=1)`: the UI framework
guarantees the returned value lies between the two bounds, clamping the
requested value. -/
def number_input (lo hi v : Nat) : Nat := max lo (min v hi)

/-- Everything the form widgets hold at the moment the booking button is
pressed: passenger name, the two station selectboxes, the requested
passenger count, and the cab sub-form's drop location and car type. -/
structure FormData where
  passenger_name : String
  source_station : Station
  destination_station : Station
  requested_count : Nat
  cab_drop_sel : Location
  selected_car_sel : CarType
deriving DecidableEq, Repr

/-- Value of the `Number of Passengers` widget: the requested count
clamped to `[1, 10]`. -/
def ticket_count (f : FormData) : Nat := number_input 1 10 f.requested_count

/-- Metro fare expression of the source, as a function of the passenger
count: `ticket_count * METRO_PRICE`. -/
def metroFareOf (n : Nat) : Nat := n * METRO_PRICE

/-- Cab fare expression of the source, as a function of the passenger
count and the selected car type: `ticket_count * CAB_RATES[selected_car]`. -/
def cabFareOf (n : Nat) (c : CarType) : Nat := n * CAB_RATES c

/-- Metro fare computed on every render: `metro_fare = ticket_count * METRO_PRICE`. -/
def metro_fare (f : FormData) : Nat := metroFareOf (ticket_count f)

/-- Cab fare: `0` from the initialisation when the cab sub-form is hidden,
else `ticket_count * CAB_RATES[selected_car]`. -/
def cab_fare (show_cab : Bool) (f : FormData) : Nat :=
  if show_cab then cabFareOf (ticket_count f) f.selected_car_sel else 0

/-- Grand total: `grand_total = metro_fare + cab_fare`. -/
def grand_total (show_cab : Bool) (f : FormData) : Nat :=
  metro_fare f + cab_fare show_cab f

/-- Cab pickup display string: auto-set to the metro destination when the
sub-form is shown, otherwise the `"N/A"` initialiser. -/
def cab_pickup_str (show_cab : Bool) (f : FormData) : String :=
  if show_cab then f.destination_station.name else "N/A"

/-- Cab drop display string: the selected location when the sub-form is
shown, otherwise the `"N/A"` initialiser. -/
def cab_drop_str (show_cab : Bool) (f : FormData) : String :=
  if show_cab then f.cab_drop_sel.name else "N/A"

/-- Selected-car display string: the selection when the sub-form is shown,
otherwise the `"None"` initialiser. -/
def selected_car_str (show_cab : Bool) (f : FormData) : String :=
  if show_cab then f.selected_car_sel.name else "None"

/-- Whitespace characters removed by Python's `str.strip()`. -/
def isPySpace (c : Char) : Bool :=
  c == ' ' || c == '\t' || c == '\n' || c == '\r' || c == '\x0b' || c == '\x0c'

/-- Python's `str.strip()`: drop leading and trailing whitespace. -/
def pyStrip (s : String) : String :=
  ⟨((s.data.dropWhile isPySpace).reverse.dropWhile isPySpace).reverse⟩

/-- The two validation failures of the booking action. -/
inductive ValidationError
  | EmptyName
  | SameStation
deriving DecidableEq, Repr

/-- Validator described in the spec: `EmptyName` when the stripped name is
empty, else `SameStation` when source equals destination, else success. -/
def validate (f : FormData) : Option ValidationError :=
  if pyStrip f.passenger_name = "" then some .EmptyName
  else if f.source_station = f.destination_station then some .SameStation
  else none

/-- Interpolated fields of the two ticket f-strings. -/
inductive TicketField
  | tid
  | pname
  | src
  | dst
  | count
  | metroAmt
  | car
  | pickup
  | drop
  | cabAmt
  | total
deriving DecidableEq, Repr

/-- One piece of an f-string: a literal chunk or an interpolated field. -/
inductive Seg
  | lit : String → Seg
  | fld : TicketField → Seg
deriving DecidableEq, Repr

/-- String values available to the ticket templates at interpolation time. -/
structure TicketEnv where
  tid : String
  pname : String
  src : String
  dst : String
  count : String
  metroAmt : String
  car : String
  pickup : String
  drop : String
  cabAmt : String
  total : String
deriving DecidableEq, Repr

/-- Look up one interpolated field in the environment. -/
def TicketEnv.get (e : TicketEnv) : TicketField → String
  | .tid => e.tid
  | .pname => e.pname
  | .src => e.src
  | .dst => e.dst
  | .count => e.count
  | .metroAmt => e.metroAmt
  | .car => e.car
  | .pickup => e.pickup
  | .drop => e.drop
  | .cabAmt => e.cabAmt
  | .total => e.total

/-- Render one segment of a template. -/
def renderSeg (e : TicketEnv) : Seg → String
  | .lit s => s
  | .fld f => e.get f

/-- Concatenate a list of strings left to right. -/
def concatAll : List String → String
  | [] => ""
  | s :: rest => s ++ concatAll rest

/-- Render a whole template against an environment. -/
def renderTicket (t : List Seg) (e : TicketEnv) : String :=
  concatAll (t.map (renderSeg e))

/-- Interpolated fields actually used by a template. -/
def usedFields (t : List Seg) : List TicketField :=
  t.filterMap fun s =>
    match s with
    | .lit _ => none
    | .fld f => some f

/-- The unified metro+cab ticket f-string of the source, segment by
segment, byte-for-byte. -/
def unifiedTemplate : List Seg :=
  [ .lit "\nUNIFIED JOURNEY TICKET\n-------------------------\nTicket ID : ",
    .fld .tid,
    .lit "\nPassenger : ",
    .fld .pname,
    .lit "\n-------------------------\n[METRO]\nFrom      : ",
    .fld .src,
    .lit "\nTo        : ",
    .fld .dst,
    .lit "\nAmount    : ₹",
    .fld .metroAmt,
    .lit "\n-------------------------\n[CAB]\nCar Type  : ",
    .fld .car,
    .lit "\nPickup    : ",
    .fld .pickup,
    .lit "\nDrop      : ",
    .fld .drop,
    .lit "\nAmount    : ₹",
    .fld .cabAmt,
    .lit "\n-------------------------\nGRAND TOTAL : ₹",
    .fld .total,
    .lit "\n-------------------------\n            " ]

/-- The metro-only ticket f-string of the source, segment by segment,
byte-for-byte. -/
def metroTemplate : List Seg :=
  [ .lit "\nMETRO TICKET\n-------------------------\nTicket ID : ",
    .fld .tid,
    .lit "\nPassenger : ",
    .fld .pname,
    .lit "\nFrom      : ",
    .fld .src,
    .lit "\nTo        : ",
    .fld .dst,
    .lit "\nTickets   : ",
    .fld .count,
    .lit "\nAmount    : ₹",
    .fld .metroAmt,
    .lit "\n-------------------------\n            " ]

/-- Environment the booking action interpolates into either template. -/
def ticketEnv (show_cab : Bool) (f : FormData) (tid : String) : TicketEnv :=
  { tid := tid
    pname := f.passenger_name
    src := f.source_station.name
    dst := f.destination_station.name
    count := Nat.repr (ticket_count f)
    metroAmt := Nat.repr (metro_fare f)
    car := selected_car_str show_cab f
    pickup := cab_pickup_str show_cab f
    drop := cab_drop_str show_cab f
    cabAmt := Nat.repr (cab_fare show_cab f)
    total := Nat.repr (grand_total show_cab f) }

/-- Ticket text built by the booking action: the unified template when the
cab sub-form is enabled, else the metro-only template. -/
def ticket_text (show_cab : Bool) (f : FormData) (tid : String) : String :=
  renderTicket (if show_cab then unifiedTemplate else metroTemplate)
    (ticketEnv show_cab f tid)

/-- Voice announcement sentence built by the booking action. -/
def voice_msg (show_cab : Bool) (f : FormData) : String :=
  if show_cab then
    "Hello " ++ f.passenger_name ++ ". Your metro from " ++
      f.source_station.name ++ " to " ++ f.destination_station.name ++
      ", and " ++ selected_car_str show_cab f ++ " cab to " ++
      cab_drop_str show_cab f ++ " is booked. Total amount is rupees " ++
      Nat.repr (grand_total show_cab f) ++ "."
  else
    "Hello " ++ f.passenger_name ++ ". Your metro ticket from " ++
      f.source_station.name ++ " to " ++ f.destination_station.name ++
      " is booked successfully. Total amount is rupees " ++
      Nat.repr (metro_fare f) ++ "."

/-- Model of the external QR encoder's contract: the produced image decodes
back to exactly the text it was given. -/
structure QRCode where
  data : String
deriving DecidableEq, Repr

/-- Generate a QR code from ticket text (`generate_qr_code`). -/
def generate_qr_code (t : String) : QRCode := ⟨t⟩

/-- Model of the external gTTS synthesizer's contract: the audio speaks
exactly the sentence it was given. -/
structure VoiceAudio where
  spoken : String
deriving DecidableEq, Repr

/-- Generate a voice announcement from a message (`generate_voice_audio`). -/
def generate_voice_audio (m : String) : VoiceAudio := ⟨m⟩

/-- Artifacts the booking action produces on success: ticket text, QR
image, voice message and its audio rendering. -/
structure BookingOutput where
  out_text : String
  out_qr : QRCode
  out_voice : String
  out_audio : VoiceAudio
deriving DecidableEq, Repr

/-- The booking action (the body of `if st.button(btn_text)`): the inline
validation chain, then ticket composition, QR generation and voice
synthesis; on a validation failure nothing is produced. -/
def book_ticket (show_cab : Bool) (f : FormData) (tid : String) :
    Except ValidationError BookingOutput :=
  if pyStrip f.passenger_name = "" then .error .EmptyName
  else if f.source_station = f.destination_station then .error .SameStation
  else
    .ok { out_text := ticket_text show_cab f tid
          out_qr := generate_qr_code (ticket_text show_cab f tid)
          out_voice := voice_msg show_cab f
          out_audio := generate_voice_audio (voice_msg show_cab f) }

/-- Lower-case hex digit characters as produced by Python's `uuid` string
form. -/
def hexChar (n : Fin 16) : Char :=
  if n.val < 10 then Char.ofNat (48 + n.val) else Char.ofNat (87 + n.val)

/-- Variant nibble of a UUID4: the high bits are forced to `10`, so the
digit is one of 8, 9, a, b. -/
def uuidVariant (n : Fin 16) : Fin 16 := ⟨8 + n.val % 4, by omega⟩

/-- Character list of `str(uuid.uuid4())`: 32 lower-case hex digits drawn
from the random nibbles `d`, with the version digit fixed to `4`, the
variant digit's high bits fixed to `10`, and dashes after digit groups of
8, 4, 4 and 4. -/
def uuid4Chars (d : Fin 32 → Fin 16) : List Char :=
  [hexChar (d 0), hexChar (d 1), hexChar (d 2), hexChar (d 3),
   hexChar (d 4), hexChar (d 5), hexChar (d 6), hexChar (d 7), '-',
   hexChar (d 8), hexChar (d 9), hexChar (d 10), hexChar (d 11), '-',
   '4', hexChar (d 13), hexChar (d 14), hexChar (d 15), '-',
   hexChar (uuidVariant (d 16)), hexChar (d 17), hexChar (d 18),
   hexChar (d 19), '-',
   hexChar (d 20), hexChar (d 21), hexChar (d 22), hexChar (d 23),
   hexChar (d 24), hexChar (d 25), hexChar (d 26), hexChar (d 27),
   hexChar (d 28), hexChar (d 29), hexChar (d 30), hexChar (d 31)]

/-- Ticket id derivation `str(uuid.uuid4())[:8].upper()`: the first 8
characters of the UUID string, upper-cased. -/
def ticket_id_of (d : Fin 32 → Fin 16) : String :=
  ⟨((uuid4Chars d).take 8).map Char.toUpper⟩

/-- Upper-case alphanumeric characters: decimal digits and capital
letters. -/
def isUpperAlnum (c : Char) : Bool := c.isDigit || c.isUpper

/-- Initial value of `st.session_state.show_cab_details` on a fresh
session. -/
def initial_show_cab_details : Bool := false

/-- User interactions that trigger a re-render of the page. -/
inductive UIEvent
  | addCabBtn
  | metroOnlyBtn
  | bookBtn
  | fieldEdit
deriving DecidableEq, Repr

/-- Effect of one interaction on `st.session_state.show_cab_details`:
the YES button sets it, the NO button clears it, every other render
leaves it unchanged. -/
def stepCabToggle (s : Bool) : UIEvent → Bool
  | .addCabBtn => true
  | .metroOnlyBtn => false
  | .bookBtn => s
  | .fieldEdit => s

/-- Toggle state after a sequence of interactions from a fresh session. -/
def runCabToggle (evts : List UIEvent) : Bool :=
  evts.foldl stepCabToggle initial_show_cab_details

/-- Check that `needle` occurs at the very start of `hay`. -/
def leadsChars : List Char → List Char → Bool
  | [], _ => true
  | _ :: _, [] => false
  | a :: as, b :: bs => a == b && leadsChars as bs

/-- Check that `needle` occurs contiguously anywhere inside `hay`. -/
def occursIn (needle : List Char) : List Char → Bool
  | [] => leadsChars needle []
  | b :: bs => leadsChars needle (b :: bs) || occursIn needle bs

/-- Substring test on strings: `needle` occurs contiguously in `hay`. -/
def strContains (hay needle : String) : Bool := occursIn needle.data hay.data

/-- Concrete booking of the spec's scenarios: name `Asha`, route
Ameerpet to KPHB, two passengers, drop `Hotel`, car `SUV`. -/
def ashaForm : FormData :=
  { passenger_name := "Asha"
    source_station := .Ameerpet
    destination_station := .KPHB
    requested_count := 2
    cab_drop_sel := .Hotel
    selected_car_sel := .SUV }

/-- A needle occurs at the start of itself followed by anything. -/
theorem leadsChars_self_append (n r : List Char) : leadsChars n (n ++ r) = true := by
  induction n with
  | nil => rfl
  | cons a as ih => simp [leadsChars, ih]

/-- Occurrence in a list is preserved by extending it on the left. -/
theorem occursIn_append (n s t : List Char) (h : occursIn n t = true) :
    occursIn n (s ++ t) = true := by
  induction s with
  | nil => simpa using h
  | cons c cs ih => simp [occursIn, ih]

/-- A needle occurs in itself followed by anything. -/
theorem occursIn_self_append (n r : List Char) : occursIn n (n ++ r) = true := by
  cases n with
  | nil => cases r <;> simp [occursIn, leadsChars]
  | cons a as =>
    have h : leadsChars (a :: as) (a :: (as ++ r)) = true := leadsChars_self_append (a :: as) r
    simp [occursIn, h]

/-- Substring occurrence is preserved by prepending any string. -/
theorem strContains_append_right (s t needle : String)
    (h : strContains t needle = true) : strContains (s ++ t) needle = true := by
  unfold strContains at h ⊢
  rw [String.data_append]
  exact occursIn_append _ _ _ h

/-- A string that starts with the needle contains it. -/
theorem strContains_self_append (needle r : String) :
    strContains (needle ++ r) needle = true := by
  unfold strContains
  rw [String.data_append]
  exact occursIn_self_append _ _

/-- Associativity of string concatenation. -/
theorem strAppend_assoc (a b c : String) : a ++ b ++ c = a ++ (b ++ c) := by
  cases a with
  | mk as =>
    cases b with
    | mk bs =>
      cases c with
      | mk cs =>
        show String.mk ((as ++ bs) ++ cs) = String.mk (as ++ (bs ++ cs))
        exact congrArg String.mk (List.append_assoc as bs cs)

/-- Upper-casing a lower-case hex digit yields an upper-case alphanumeric
character. -/
theorem hexChar_toUpper_alnum : ∀ n : Fin 16, isUpperAlnum ((hexChar n).toUpper) = true := by
  decide

/-- C1: on the booking action, validation fails with `EmptyName` exactly
when the stripped passenger name is empty; otherwise it fails with
`SameStation` exactly when source equals destination; otherwise it
succeeds and produces the ticket artifacts. On either failure no ticket
text, QR image or voice message is produced (the error result carries no
artifact). -/
theorem booking_validation_C1 (show_cab : Bool) (f : FormData) (tid : String) :
    (book_ticket show_cab f tid = .error .EmptyName ↔ pyStrip f.passenger_name = "") ∧
    (book_ticket show_cab f tid = .error .SameStation ↔
      (pyStrip f.passenger_name ≠ "" ∧ f.source_station = f.destination_station)) ∧
    ((∃ out, book_ticket show_cab f tid = .ok out) ↔
      (pyStrip f.passenger_name ≠ "" ∧ f.source_station ≠ f.destination_station)) ∧
    (∀ e out, ¬(book_ticket show_cab f tid = .error e ∧
      book_ticket show_cab f tid = .ok out)) := by
  unfold book_ticket
  split_ifs with h1 h2 <;> simp_all

/-- Witness for C1: the concrete Asha booking passes validation and the
booking action succeeds on it. -/
theorem booking_validation_C1_witness :
    pyStrip ashaForm.passenger_name ≠ "" ∧
    ashaForm.source_station ≠ ashaForm.destination_station ∧
    (∃ out, book_ticket false ashaForm "AB12CD34" = Except.ok out) :=
  ⟨by decide, by decide,
    (booking_validation_C1 false ashaForm "AB12CD34").2.2.1.mpr ⟨by decide, by decide⟩⟩

/-- C2: for every passenger count `n` with `1 ≤ n`, the metro fare equals
`30 * n`. -/
theorem metro_fare_C2 (n : Nat) (_h : 1 ≤ n) : metroFareOf n = 30 * n := by
  simp [metroFareOf, METRO_PRICE, Nat.mul_comm]

/-- Witness for C2 at the concrete count 2. -/
theorem metro_fare_C2_witness : 1 ≤ 2 ∧ metroFareOf 2 = 30 * 2 :=
  ⟨by decide, metro_fare_C2 2 (by decide)⟩

/-- C3: for every count `n ≥ 1` and car type `c`, the cab fare is
`n * rate(c)` with rates Mini 40, Sedan 60, SUV 90; for the concrete
booking with 2 passengers and an SUV, the cab fare is 180, the metro fare
60 and the grand total 240. -/
theorem cab_fare_C3 :
    (∀ (n : Nat) (c : CarType), 1 ≤ n → cabFareOf n c = n * CAB_RATES c) ∧
    CAB_RATES .Mini = 40 ∧ CAB_RATES .Sedan = 60 ∧ CAB_RATES .SUV = 90 ∧
    cab_fare true ashaForm = 180 ∧ metro_fare ashaForm = 60 ∧
    grand_total true ashaForm = 240 :=
  ⟨fun _ _ _ => rfl, rfl, rfl, rfl, by decide, by decide, by decide⟩

/-- Witness for C3's universal part at count 2 and car type SUV. -/
theorem cab_fare_C3_witness : 1 ≤ 2 ∧ cabFareOf 2 CarType.SUV = 2 * CAB_RATES CarType.SUV :=
  ⟨by decide, cab_fare_C3.1 2 .SUV (by decide)⟩

/-- C4: for every combination of inputs, the grand total is the metro
fare plus the cab fare, the cab fare is 0 whenever the cab toggle is off,
and equals the per-car-type fare whenever it is on. -/
theorem grand_total_C4 (show_cab : Bool) (f : FormData) :
    grand_total show_cab f = metro_fare f + cab_fare show_cab f ∧
    cab_fare false f = 0 ∧
    cab_fare true f = cabFareOf (ticket_count f) f.selected_car_sel :=
  ⟨rfl, rfl, rfl⟩

/-- Counterexample for C5 as stated: for the Asha booking (metro only,
two passengers) the produced ticket text contains neither the substring
`Ameerpet -> KPHB` nor the substrings `From: Ameerpet` and `To: KPHB`:
the template pads the field labels (`From      : `). -/
theorem scenario_ticket_C5_counterexample :
    ¬(strContains (ticket_text false ashaForm "AB12CD34") "Ameerpet -> KPHB" = true ∨
      (strContains (ticket_text false ashaForm "AB12CD34") "From: Ameerpet" = true ∧
       strContains (ticket_text false ashaForm "AB12CD34") "To: KPHB" = true)) := by
  decide

/-- C5 (amended): for the Asha booking the metro fare is 60, the grand
total is 60, and for every generated ticket id the produced ticket text
contains `From      : Ameerpet`, `To        : KPHB` (the template pads
the labels to ten characters) and `₹60`. -/
theorem scenario_ticket_C5 (tid : String) :
    metro_fare ashaForm = 60 ∧ grand_total false ashaForm = 60 ∧
    strContains (ticket_text false ashaForm tid) "From      : Ameerpet" = true ∧
    strContains (ticket_text false ashaForm tid) "To        : KPHB" = true ∧
    strContains (ticket_text false ashaForm tid) "₹60" = true := by
  refine ⟨by decide, by decide, ?_, ?_, ?_⟩ <;>
  · simp only [ticket_text, renderTicket, metroTemplate, concatAll, List.map, renderSeg,
      ticketEnv, TicketEnv.get, Bool.false_eq_true, if_false]
    apply strContains_append_right
    apply strContains_append_right
    decide

/-- C6: ticket composition is deterministic: two renders that agree on
every booking field, on the cab toggle and on the generated ticket id
produce identical ticket text and identical voice-announcement text. -/
theorem ticket_deterministic_C6 (s₁ s₂ : Bool) (f₁ f₂ : FormData) (t₁ t₂ : String)
    (hname : f₁.passenger_name = f₂.passenger_name)
    (hsrc : f₁.source_station = f₂.source_station)
    (hdst : f₁.destination_station = f₂.destination_station)
    (hcnt : f₁.requested_count = f₂.requested_count)
    (hdrop : f₁.cab_drop_sel = f₂.cab_drop_sel)
    (hcar : f₁.selected_car_sel = f₂.selected_car_sel)
    (hshow : s₁ = s₂) (htid : t₁ = t₂) :
    ticket_text s₁ f₁ t₁ = ticket_text s₂ f₂ t₂ ∧ voice_msg s₁ f₁ = voice_msg s₂ f₂ := by
  have hf : f₁ = f₂ := by cases f₁; cases f₂; simp_all
  subst hf hshow htid
  exact ⟨rfl, rfl⟩

/-- Witness for C6 at the concrete Asha booking. -/
theorem ticket_deterministic_C6_witness :
    ticket_text false ashaForm "AB12CD34" = ticket_text false ashaForm "AB12CD34" ∧
    voice_msg false ashaForm = voice_msg false ashaForm :=
  ticket_deterministic_C6 false false ashaForm ashaForm "AB12CD34" "AB12CD34"
    rfl rfl rfl rfl rfl rfl rfl rfl

/-- C7: the cab-toggle state machine: the flag starts false on a fresh
session, the YES button sets it, the NO button clears it, no other
interaction changes it, and it keeps its value across any sequence of
re-renders that press neither button. -/
theorem cab_toggle_C7 :
    initial_show_cab_details = false ∧
    (∀ s : Bool, stepCabToggle s .addCabBtn = true) ∧
    (∀ s : Bool, stepCabToggle s .metroOnlyBtn = false) ∧
    (∀ (s : Bool) (e : UIEvent), e ≠ .addCabBtn → e ≠ .metroOnlyBtn →
      stepCabToggle s e = s) ∧
    (∀ (s : Bool) (evts : List UIEvent),
      (∀ e ∈ evts, e ≠ .addCabBtn ∧ e ≠ .metroOnlyBtn) →
        evts.foldl stepCabToggle s = s) := by
  refine ⟨rfl, fun _ => rfl, fun _ => rfl, ?_, ?_⟩
  · intro s e h1 h2
    cases e <;> simp_all [stepCabToggle]
  · intro s evts
    induction evts generalizing s with
    | nil => intro _; rfl
    | cons e rest ih =>
      intro h
      have hstep : stepCabToggle s e = s := by
        have he := h e (by simp)
        cases e <;> simp_all [stepCabToggle]
      rw [List.foldl_cons, hstep]
      exact ih s (fun x hx => h x (by simp [hx]))

/-- Witness for C7: a book click and a field edit leave the flag as it
was, starting from either value. -/
theorem cab_toggle_C7_witness :
    stepCabToggle true .fieldEdit = true ∧
    [UIEvent.bookBtn, UIEvent.fieldEdit].foldl stepCabToggle false = false :=
  ⟨cab_toggle_C7.2.2.2.1 true .fieldEdit (by decide) (by decide),
   cab_toggle_C7.2.2.2.2 false [.bookBtn, .fieldEdit] (by decide)⟩

/-- C8: for every generated random identifier, the ticket id is the first
eight characters of the identifier's string form upper-cased, has length
eight, and every one of its characters is an upper-case alphanumeric. -/
theorem ticket_id_C8 (d : Fin 32 → Fin 16) :
    (ticket_id_of d).data = ((uuid4Chars d).take 8).map Char.toUpper ∧
    (ticket_id_of d).length = 8 ∧
    (∀ c ∈ (ticket_id_of d).data, isUpperAlnum c = true) := by
  refine ⟨rfl, rfl, ?_⟩
  intro c hc
  rw [show (ticket_id_of d).data =
    [(hexChar (d 0)).toUpper, (hexChar (d 1)).toUpper, (hexChar (d 2)).toUpper,
     (hexChar (d 3)).toUpper, (hexChar (d 4)).toUpper, (hexChar (d 5)).toUpper,
     (hexChar (d 6)).toUpper, (hexChar (d 7)).toUpper] from rfl] at hc
  simp only [List.mem_cons, List.not_mem_nil, or_false] at hc
  rcases hc with rfl | rfl | rfl | rfl | rfl | rfl | rfl | rfl <;>
    exact hexChar_toUpper_alnum _

/-- Witness for C8 at the all-`a` nibble assignment, whose ticket id is
`AAAAAAAA`. -/
theorem ticket_id_C8_witness :
    isUpperAlnum 'A' = true ∧ (ticket_id_of fun _ => 10).length = 8 :=
  ⟨(ticket_id_C8 fun _ => 10).2.2 'A' (by decide), (ticket_id_C8 fun _ => 10).2.1⟩

/-- C9: the two ticket templates are asymmetric about the passenger
count: the metro-only template interpolates the count and its rendering
always contains the `Tickets` line showing it, while the unified
metro+cab template does not interpolate the count at all (the count
reaches it only through the fare fields). -/
theorem ticket_templates_C9 :
    TicketField.count ∈ usedFields metroTemplate ∧
    TicketField.count ∉ usedFields unifiedTemplate ∧
    (∀ (f : FormData) (tid : String),
      strContains (ticket_text false f tid)
        ("Tickets   : " ++ Nat.repr (ticket_count f)) = true) ∧
    (∀ (f : FormData) (tid : String),
      ticket_text true f tid = renderTicket unifiedTemplate (ticketEnv true f tid)) := by
  refine ⟨by decide, by decide, ?_, fun _ _ => rfl⟩
  intro f tid
  simp only [ticket_text, renderTicket, metroTemplate, concatAll, List.map, renderSeg,
    ticketEnv, TicketEnv.get, Bool.false_eq_true, if_false]
  apply strContains_append_right
  apply strContains_append_right
  apply strContains_append_right
  apply strContains_append_right
  apply strContains_append_right
  apply strContains_append_right
  apply strContains_append_right
  apply strContains_append_right
  rw [show ("\nTickets   : " : String) = "\n" ++ "Tickets   : " from rfl, strAppend_assoc]
  apply strContains_append_right
  rw [← strAppend_assoc]
  exact strContains_self_append _ _

/-- Witness for C9's containment part at the concrete Asha booking. -/
theorem ticket_templates_C9_witness :
    strContains (ticket_text false ashaForm "AB12CD34")
      ("Tickets   : " ++ Nat.repr (ticket_count ashaForm)) = true :=
  ticket_templates_C9.2.2.1 ashaForm "AB12CD34"

/-- C10: the passenger count accepted at the form is always between 1 and
10, so every metro fare lies in `[30, 300]` and every cab fare (cab
requested) in `[40, 900]`. -/
theorem count_and_fare_bounds_C10 :
    (∀ v : Nat, 1 ≤ number_input 1 10 v ∧ number_input 1 10 v ≤ 10) ∧
    (∀ f : FormData,
      1 ≤ ticket_count f ∧ ticket_count f ≤ 10 ∧
      30 ≤ metro_fare f ∧ metro_fare f ≤ 300 ∧
      40 ≤ cab_fare true f ∧ cab_fare true f ≤ 900) := by
  constructor
  · intro v; unfold number_input; omega
  · intro f
    have h1 : 1 ≤ ticket_count f := by unfold ticket_count number_input; omega
    have h2 : ticket_count f ≤ 10 := by unfold ticket_count number_input; omega
    have hr1 : 40 ≤ CAB_RATES f.selected_car_sel := by
      cases hc : f.selected_car_sel <;> simp [CAB_RATES, hc]
    have hr2 : CAB_RATES f.selected_car_sel ≤ 90 := by
      cases hc : f.selected_car_sel <;> simp [CAB_RATES, hc]
    refine ⟨h1, h2, ?_, ?_, ?_, ?_⟩
    · show 30 ≤ ticket_count f * 30
      omega
    · show ticket_count f * 30 ≤ 300
      omega
    · show 40 ≤ ticket_count f * CAB_RATES f.selected_car_sel
      calc 40 = 1 * 40 := by norm_num
        _ ≤ ticket_count f * CAB_RATES f.selected_car_sel := Nat.mul_le_mul h1 hr1
    · show ticket_count f * CAB_RATES f.selected_car_sel ≤ 900
      calc ticket_count f * CAB_RATES f.selected_car_sel ≤ 10 * 90 := Nat.mul_le_mul h2 hr2
        _ = 900 := by norm_num
